import Mathlib

/-!
Shallow embedding of `server.py` (a Microsoft-Docs MCP server) and proofs of
the specification claims about it.

Modelling conventions:
* A Python dict of string keys and string values (a search-result record as the
  code inspects it) is an association list `Dict`; `dictGet` models
  `d.get(key, default)`.
* Network I/O is modelled by passing the outcome of the single HTTP request a
  function makes as an explicit argument (`SearchOutcome` / `FetchOutcome`):
  a response with a status code and a body, or a network/parse fault carrying
  the exception text.  A function "does not perform the call" exactly when its
  result does not depend on that argument.
* Python `lst[:n]` with `n` a possibly negative int is `pySliceTo`;
  `s[:n]` on strings (nonnegative `n`) is `pyStrTake`; Python's substring
  operator `in` is `strContains`.
* HTML as far as `get_page_content` inspects it is a rose tree `HtmlNode`;
  the four content selectors and the four removal selectors of the code are
  the inductive `Selector`, with BeautifulSoup's `select_one` as a pre-order
  first match (`selectOneDoc`) and `decompose` of matching descendants as
  `pruneNode`.
-/

/-- A Python dict as the code reads it: string keys to string values. -/
abbrev Dict := List (String × String)

/-- Models Python `d.get(k, default)`. -/
def dictGet (d : Dict) (k default : String) : String :=
  match d.find? (fun p => p.1 == k) with
  | some p => p.2
  | none => default

/-- Models Python `lst[:n]` for an arbitrary (possibly negative) int `n`. -/
def pySliceTo {α : Type} (l : List α) (n : Int) : List α :=
  if 0 ≤ n then l.take n.toNat
  else l.take (l.length - (-n).toNat)

/-- Models Python `s[:n]` on strings for nonnegative `n` (per code point). -/
def pyStrTake (s : String) (n : Nat) : String := String.mk (s.data.take n)

/-- Models Python `sub in s` on strings: contiguous substring test. -/
def strContains (s sub : String) : Bool :=
  (List.range (s.data.length + 1)).any
    (fun i => (s.data.drop i).take sub.data.length == sub.data)

/-- Models Python `s.startswith(pre)`: prefix test on the code points. -/
def pyStartsWith (s pre : String) : Bool :=
  List.isPrefixOf pre.data s.data

/-- `LEARN_BASE_URL` from the source. -/
def LEARN_BASE_URL : String := "https://learn.microsoft.com"

/-- `DOCS_BASE_URL` from the source. -/
def DOCS_BASE_URL : String := "https://docs.microsoft.com"

/-- The body of a search response once `response.json()` succeeded:
`data.get("results", [])` only looks at the optional `results` key,
whose value is the list of result records. -/
structure SearchPayload where
  results : Option (List Dict)

/-- Outcome of the one HTTP GET issued by `search_docs`: either a response
with a status and (when consulted) the result of `response.json()` —
`.error` being a JSON-parse fault — or a network fault (`except Exception`). -/
inductive SearchOutcome where
  | response (status : Nat) (body : Except String SearchPayload)
  | netFault (desc : String)

/-- `MicrosoftDocsClient._fallback_search`'s `mock_results` list. -/
def mock_results (query : String) (product : String) : List Dict :=
  [ [("title", "Microsoft Documentation: " ++ query),
     ("url", LEARN_BASE_URL ++ "/en-us/docs/" ++ (query.toLower.replace " " "-")),
     ("description", "Documentation about " ++ query ++ " in Microsoft products"),
     ("lastUpdated", "2024-01-01T00:00:00Z"),
     ("product", if product = "" then "General" else product)],
    [("title", query ++ " - Getting Started Guide"),
     ("url", LEARN_BASE_URL ++ "/en-us/docs/" ++ (query.toLower.replace " " "-") ++ "/getting-started"),
     ("description", "Getting started guide for " ++ query),
     ("lastUpdated", "2024-01-01T00:00:00Z"),
     ("product", if product = "" then "General" else product)],
    [("title", query ++ " - Code Examples"),
     ("url", LEARN_BASE_URL ++ "/en-us/samples/" ++ (query.toLower.replace " " "-")),
     ("description", "Code examples and samples for " ++ query),
     ("lastUpdated", "2024-01-01T00:00:00Z"),
     ("product", if product = "" then "General" else product)] ]

/-- `MicrosoftDocsClient._fallback_search`: `mock_results[:max_results]`. -/
def fallback_search (query : String) (product : String) (max_results : Int) : List Dict :=
  pySliceTo (mock_results query product) max_results

/-- `MicrosoftDocsClient.search_docs`: on a 200 response whose JSON parse
succeeded, `data.get("results", [])`; on any other status or any fault,
the fallback.  `language` only feeds the request parameters, hence is unused
once the outcome is given. -/
def search_docs (query : String) (product : String) (language : String)
    (max_results : Int) (out : SearchOutcome) : List Dict :=
  match out with
  | .response status body =>
    if status = 200 then
      match body with
      | .ok data => data.results.getD []
      | .error _ => fallback_search query product max_results
    else
      fallback_search query product max_results
  | .netFault _ => fallback_search query product max_results

/-- The outcomes on which `search_docs` takes the fallback path: any non-200
status, a JSON-parse fault on a 200 response, or a network fault. -/
def searchFailed : SearchOutcome → Bool
  | .response 200 (.ok _) => false
  | .response 200 (.error _) => true
  | .response _ _ => true
  | .netFault _ => true

/-- An HTML node as BeautifulSoup presents it: an element with a tag name,
attributes and children, or a text node. -/
inductive HtmlNode where
  | element (tag : String) (attrs : List (String × String)) (children : List HtmlNode)
  | text (s : String)

/-- First value of an attribute, if present. -/
def getAttr (attrs : List (String × String)) (name : String) : Option String :=
  match attrs.find? (fun p => p.1 == name) with
  | some p => some p.2
  | none => none

/-- The CSS selector shapes the code uses: `main[role="main"]`, `.content`,
`article`, `#main-content`, `nav`, `.breadcrumb`, `.alert`,
`.feedback-section`. -/
inductive Selector where
  | tagAttr (tag : String) (attr : String) (val : String)
  | cls (c : String)
  | tag (t : String)
  | idSel (i : String)

/-- Splits a character list at spaces (the groups between the spaces). -/
def splitOnSpace : List Char → List (List Char)
  | [] => [[]]
  | c :: cs =>
    match splitOnSpace cs with
    | [] => [[]]
    | g :: gs => if c = ' ' then [] :: g :: gs else (c :: g) :: gs

/-- The class tokens of a `class` attribute value: its space-separated words. -/
def classTokens (v : String) : List String :=
  (splitOnSpace v.data).map String.mk

/-- Whether a node (necessarily an element) matches a selector; a class
selector matches any of the whitespace-separated class tokens. -/
def matchesSel (sel : Selector) : HtmlNode → Bool
  | .text _ => false
  | .element t attrs _ =>
    match sel with
    | .tagAttr tg a v => t == tg && getAttr attrs a == some v
    | .cls c => c ∈ classTokens ((getAttr attrs "class").getD "")
    | .tag tg => t == tg
    | .idSel i => getAttr attrs "id" == some i

mutual
/-- `select_one` below a node: the node itself, then its children pre-order. -/
def selectOne (sel : Selector) : HtmlNode → Option HtmlNode
  | .text _ => none
  | .element t a cs =>
    if matchesSel sel (.element t a cs) then some (.element t a cs)
    else selectOneList sel cs
/-- `select_one` over a sibling list, in document order. -/
def selectOneList (sel : Selector) : List HtmlNode → Option HtmlNode
  | [] => none
  | n :: ns =>
    match selectOne sel n with
    | some e => some e
    | none => selectOneList sel ns
end

/-- `soup.select_one(sel)` on a document given by its top-level nodes. -/
def selectOneDoc (sel : Selector) (doc : List HtmlNode) : Option HtmlNode :=
  selectOneList sel doc

/-- The selectors of `element.select('nav, .breadcrumb, .alert, .feedback-section')`. -/
def unwanted_selectors : List Selector :=
  [.tag "nav", .cls "breadcrumb", .cls "alert", .cls "feedback-section"]

/-- Whether a node matches one of the non-content selectors the code removes. -/
def isUnwanted (n : HtmlNode) : Bool :=
  unwanted_selectors.any (fun s => matchesSel s n)

mutual
/-- Effect of `unwanted.decompose()` on a subtree: every (strict) descendant
matching an unwanted selector is removed together with its subtree. -/
def pruneNode : HtmlNode → HtmlNode
  | .text s => .text s
  | .element t a cs => .element t a (pruneList cs)
/-- `pruneNode` over a sibling list. -/
def pruneList : List HtmlNode → List HtmlNode
  | [] => []
  | n :: ns => if isUnwanted n then pruneList ns else pruneNode n :: pruneList ns
end

mutual
/-- The stripped, nonempty text strings of a subtree in document order, as
`get_text(strip=True, separator='\n')` collects them. -/
def texts : HtmlNode → List String
  | .text s => if s.trim = "" then [] else [s.trim]
  | .element _ _ cs => textsList cs
/-- `texts` over a sibling list. -/
def textsList : List HtmlNode → List String
  | [] => []
  | n :: ns => texts n ++ textsList ns
end

/-- `element.get_text(strip=True, separator='\n')`. -/
def get_text (n : HtmlNode) : String :=
  String.intercalate "\n" (texts n)

/-- `content_selectors` from the source, in order. -/
def content_selectors : List Selector :=
  [.tagAttr "main" "role" "main", .cls "content", .tag "article", .idSel "main-content"]

/-- The `for selector in content_selectors: ... break` loop: the first
selector with a match wins; later selectors are not consulted. -/
def firstMatch : List Selector → List HtmlNode → Option HtmlNode
  | [], _ => none
  | s :: ss, doc =>
    match selectOneDoc s doc with
    | some e => some e
    | none => firstMatch ss doc

/-- The `content` variable after the selector loop: text of the pruned first
match, or `""` when no selector matched. -/
def extractContent (doc : List HtmlNode) : String :=
  match firstMatch content_selectors doc with
  | some e => get_text (pruneNode e)
  | none => ""

/-- Outcome of the one HTTP GET issued by `get_page_content`: a response with
a status and (when consulted) the result of `response.text()` parsed into the
document tree — `.error` being a fault while reading the body — or a network
fault. -/
inductive FetchOutcome where
  | response (status : Nat) (body : Except String (List HtmlNode))
  | netFault (desc : String)

/-- `MicrosoftDocsClient.get_page_content`. -/
def get_page_content (url : String) (out : FetchOutcome) : String :=
  match out with
  | .response status body =>
    if status = 200 then
      match body with
      | .ok doc => pyStrTake (extractContent doc) 5000
      | .error e => "Error fetching content: " ++ e
    else
      "Error fetching content: HTTP " ++ toString status
  | .netFault e => "Error fetching content: " ++ e

/-- The `formatted_result` dict built by `search_microsoft_docs` for one
search result. -/
def formatResult (r : Dict) : Dict :=
  [("title", dictGet r "title" "No title"),
   ("url", dictGet r "url" ""),
   ("description", dictGet r "description" "No description available"),
   ("lastUpdated", dictGet r "lastUpdated" "Unknown"),
   ("product", dictGet r "product" "General")]

/-- The `search_microsoft_docs` tool: clamps `max_results` with
`min(max_results, 10)`, calls `search_docs`, reformats each record. -/
def search_microsoft_docs (query : String) (product : String) (language : String)
    (max_results : Int) (out : SearchOutcome) : List Dict :=
  let max_results := min max_results 10
  (search_docs query product language max_results out).map formatResult

/-- The `get_documentation_content` tool: prefix-validates the URL, then
delegates to `get_page_content`. -/
def get_documentation_content (url : String) (out : FetchOutcome) : String :=
  if !(pyStartsWith url "https://docs.microsoft.com" || pyStartsWith url "https://learn.microsoft.com") then
    "Error: URL must be from docs.microsoft.com or learn.microsoft.com"
  else
    get_page_content url out

/-- The keyword list of the filter in `find_code_examples`. -/
def code_keywords : List String :=
  ["example", "tutorial", "sample", "quickstart", "getting started"]

/-- The filter condition of `find_code_examples`: some keyword occurs in the
lower-cased title or the lower-cased description. -/
def matchesCodeExample (r : Dict) : Bool :=
  code_keywords.any (fun keyword =>
    strContains (dictGet r "title" "").toLower keyword ||
    strContains (dictGet r "description" "").toLower keyword)

/-- The record `find_code_examples` builds for a kept result. -/
def formatCodeExample (r : Dict) : Dict :=
  [("title", dictGet r "title" ""),
   ("url", dictGet r "url" ""),
   ("description", dictGet r "description" ""),
   ("type", "code_example")]

/-- The query string `find_code_examples` builds: technology, the optional
language and scenario, then the four fixed keywords, space-joined. -/
def codeExamplesQuery (technology : String) (programming_language : String)
    (scenario : String) : String :=
  String.intercalate " "
    ([technology]
      ++ (if programming_language ≠ "" then [programming_language] else [])
      ++ (if scenario ≠ "" then [scenario] else [])
      ++ ["code", "example", "tutorial", "sample"])

/-- The `find_code_examples` tool: searches with the composite query
(`max_results=5`, default product and language), keeps only records passing
`matchesCodeExample`, and reformats them. -/
def find_code_examples (technology : String) (programming_language : String)
    (scenario : String) (out : SearchOutcome) : List Dict :=
  let query := codeExamplesQuery technology programming_language scenario
  let results := search_docs query "" "en-us" 5 out
  (results.filter matchesCodeExample).map formatCodeExample

theorem search_docs_failed (q p l : String) (mr : Int) (out : SearchOutcome)
    (h : searchFailed out = true) :
    search_docs q p l mr out = fallback_search q p mr := by
  cases out with
  | response status body =>
    by_cases hs : status = 200
    · subst hs
      cases body with
      | ok d => simp [searchFailed] at h
      | error e => rfl
    · cases body with
      | ok d => simp [search_docs, hs]
      | error e => simp [search_docs, hs]
  | netFault e => rfl

/-- C1: the claim quantifies over every `maxResults`; at `maxResults = -1`
and a network fault, the code returns the first two synthesized records,
while the first `min(3, maxResults)` records would be none at all. -/
theorem C1_counterexample :
    (search_docs "azure" "" "en-us" (-1) (.netFault "timeout")).length = 2 ∧
    ((mock_results "azure" "").take (min (3 : Int) (-1)).toNat).length = 0 ∧
    search_docs "azure" "" "en-us" (-1) (.netFault "timeout") ≠
      (mock_results "azure" "").take (min (3 : Int) (-1)).toNat := by
  refine ⟨rfl, rfl, ?_⟩
  decide

/-- C1 (amended to nonnegative `maxResults`): on any non-200 status or any
network/parse fault, `search_docs` raises nothing and returns the first
`min(3, maxResults)` of the three deterministic fallback records, whose URLs
are built from the lower-cased, hyphenated query and whose `lastUpdated` is
the fixed sentinel date. -/
theorem C1_amended (query product language : String) (max_results : Int)
    (out : SearchOutcome) (hfail : searchFailed out = true)
    (hmr : 0 ≤ max_results) :
    search_docs query product language max_results out =
      (mock_results query product).take (min 3 max_results).toNat ∧
    (mock_results query product).length = 3 ∧
    (mock_results query product).map (fun r => dictGet r "url" "") =
      [LEARN_BASE_URL ++ "/en-us/docs/" ++ (query.toLower.replace " " "-"),
       LEARN_BASE_URL ++ "/en-us/docs/" ++ (query.toLower.replace " " "-") ++ "/getting-started",
       LEARN_BASE_URL ++ "/en-us/samples/" ++ (query.toLower.replace " " "-")] ∧
    ∀ r ∈ mock_results query product,
      dictGet r "lastUpdated" "" = "2024-01-01T00:00:00Z" := by
  refine ⟨?_, rfl, rfl, ?_⟩
  · rw [search_docs_failed _ _ _ _ _ hfail]
    unfold fallback_search pySliceTo
    rw [if_pos hmr]
    apply List.take_eq_take.mpr
    have hlen : (mock_results query product).length = 3 := rfl
    rw [hlen]
    omega
  · intro r hr
    simp only [mock_results, List.mem_cons, List.not_mem_nil, or_false] at hr
    rcases hr with rfl | rfl | rfl <;> rfl

/-- C1 witness: a failed search with `maxResults = 2` returns the first two
fallback records. -/
theorem C1_witness :
    searchFailed (.response 500 (.ok ⟨none⟩)) = true ∧ (0 : Int) ≤ 2 ∧
    search_docs "Azure Functions" "" "en-us" 2 (.response 500 (.ok ⟨none⟩)) =
      (mock_results "Azure Functions" "").take (min 3 (2 : Int)).toNat :=
  ⟨rfl, by decide,
   (C1_amended "Azure Functions" "" "en-us" 2
     (.response 500 (.ok ⟨none⟩)) rfl (by decide)).1⟩

/-- C2: on HTTP 200 the code returns `data.get("results", [])` without any
client-side truncation: with `maxResults = 1` and a two-element payload it
returns both elements. -/
theorem C2_counterexample :
    (search_docs "q" "" "en-us" 1
      (.response 200 (.ok ⟨some [[("title", "a")], [("title", "b")]]⟩))).length = 2 ∧
    ¬ ((search_docs "q" "" "en-us" 1
      (.response 200 (.ok ⟨some [[("title", "a")], [("title", "b")]]⟩))).length ≤ 1) :=
  ⟨rfl, by decide⟩

/-- C2 (amended): on HTTP 200 the parsed body's `results` sequence is
returned unchanged, the empty sequence when the key is missing; no
truncation to `maxResults` is applied on this path (the cap is only
requested from the server via the `$top` request parameter). -/
theorem C2_amended (query product language : String) (max_results : Int)
    (body : SearchPayload) :
    search_docs query product language max_results
      (.response 200 (.ok body)) = body.results.getD [] := rfl

/-- C8: the facade clamps the caller's `max_results` with `min(·, 10)` before
passing it to the client's search; the effective value never exceeds 10, and
a caller-supplied 1000 becomes 10. -/
theorem C8 (query product language : String) (max_results : Int)
    (out : SearchOutcome) :
    search_microsoft_docs query product language max_results out =
      (search_docs query product language (min max_results 10) out).map formatResult ∧
    min max_results 10 ≤ 10 ∧
    min (1000 : Int) 10 = 10 :=
  ⟨rfl, min_le_right _ _, by decide⟩

/-- C10: the facade clamp `min(max_results, 10)` is an upper bound only, so
negative values pass through, and at `max_results = -1` a failed search
returns the first two synthesized records (Python slicing from the end)
rather than an empty sequence. -/
theorem C10 :
    (∀ max_results : Int, max_results < 0 →
      min max_results 10 = max_results) ∧
    search_microsoft_docs "azure" "" "en-us" (-1) (.netFault "boom") =
      ((mock_results "azure" "").take 2).map formatResult ∧
    ((mock_results "azure" "").take 2).length = 2 := by
  refine ⟨fun mr h => by omega, ?_, rfl⟩
  rfl

/-- C10 witness: the pass-through instantiated at `-1`. -/
theorem C10_witness :
    min (-1 : Int) 10 = -1 ∧
    search_microsoft_docs "azure" "" "en-us" (-1) (.netFault "boom") =
      ((mock_results "azure" "").take 2).map formatResult :=
  ⟨C10.1 (-1) (by decide), C10.2.1⟩

/-- Length of the status or fault text a fetch outcome would embed into an
error string (0 on the success path). -/
def fetchFaultTextLength : FetchOutcome → Nat
  | .response status body =>
    if status = 200 then
      match body with
      | .ok _ => 0
      | .error e => e.length
    else (toString status).length
  | .netFault e => e.length

/-- C3: the claim allows an arbitrary fault description, but the error path
of `get_page_content` is not truncated: a 4977-character fault description
yields a 5001-character return value. -/
theorem C3_counterexample :
    5000 < (get_page_content "https://learn.microsoft.com/x"
      (.netFault (String.mk (List.replicate 4977 'a')))).length := by
  have h : get_page_content "https://learn.microsoft.com/x"
      (.netFault (String.mk (List.replicate 4977 'a'))) =
      "Error fetching content: " ++ String.mk (List.replicate 4977 'a') := rfl
  rw [h, String.length_append]
  nth_rewrite 2 [String.length_mk]
  rw [List.length_replicate]
  have hp : ("Error fetching content: " : String).length = 24 := rfl
  omega

/-- C3 (amended): the HTTP-200 success path is always truncated to at most
5000 characters regardless of input size; the error paths return a fixed
prefix plus the status or fault text, so the bound holds whenever that text
is at most 4971 characters. -/
theorem C3_amended (url : String) (out : FetchOutcome)
    (h : fetchFaultTextLength out ≤ 4971) :
    (get_page_content url out).length ≤ 5000 := by
  cases out with
  | response status body =>
    by_cases hs : status = 200
    · subst hs
      cases body with
      | ok doc =>
        show (pyStrTake (extractContent doc) 5000).length ≤ 5000
        unfold pyStrTake
        rw [String.length_mk, List.length_take]
        omega
      | error e =>
        have he : e.length ≤ 4971 := by
          simpa [fetchFaultTextLength] using h
        show ("Error fetching content: " ++ e).length ≤ 5000
        rw [String.length_append]
        have hp : ("Error fetching content: " : String).length = 24 := rfl
        omega
    · have he : (toString status).length ≤ 4971 := by
        simpa [fetchFaultTextLength, hs] using h
      have hval : get_page_content url (.response status body) =
          "Error fetching content: HTTP " ++ toString status := by
        simp [get_page_content, hs]
      rw [hval, String.length_append]
      have hp : ("Error fetching content: HTTP " : String).length = 29 := rfl
      omega
  | netFault e =>
    have he : e.length ≤ 4971 := by simpa [fetchFaultTextLength] using h
    show ("Error fetching content: " ++ e).length ≤ 5000
    rw [String.length_append]
    have hp : ("Error fetching content: " : String).length = 24 := rfl
    omega

/-- C3 witness: the bound instantiated at a short network fault. -/
theorem C3_witness :
    fetchFaultTextLength (.netFault "Connection reset by peer") ≤ 4971 ∧
    (get_page_content "https://learn.microsoft.com/x"
      (.netFault "Connection reset by peer")).length ≤ 5000 :=
  ⟨by decide,
   C3_amended "https://learn.microsoft.com/x"
     (.netFault "Connection reset by peer") (by decide)⟩

/-- C6: a URL starting with neither accepted prefix is rejected with the
fixed error string, independently of any network outcome (so no call is
made); a URL starting with one of them is delegated to `get_page_content`. -/
theorem C6 (url : String) (out : FetchOutcome) :
    (¬ (pyStartsWith url "https://docs.microsoft.com" = true ∨
        pyStartsWith url "https://learn.microsoft.com" = true) →
      get_documentation_content url out =
        "Error: URL must be from docs.microsoft.com or learn.microsoft.com") ∧
    ((pyStartsWith url "https://docs.microsoft.com" = true ∨
      pyStartsWith url "https://learn.microsoft.com" = true) →
      get_documentation_content url out = get_page_content url out) := by
  constructor
  · intro h
    have h1 : pyStartsWith url "https://docs.microsoft.com" = false := by
      cases hb : pyStartsWith url "https://docs.microsoft.com"
      · rfl
      · exact absurd (Or.inl hb) h
    have h2 : pyStartsWith url "https://learn.microsoft.com" = false := by
      cases hb : pyStartsWith url "https://learn.microsoft.com"
      · rfl
      · exact absurd (Or.inr hb) h
    simp [get_documentation_content, h1, h2]
  · intro h
    rcases h with h | h <;> simp [get_documentation_content, h]

/-- C6 witness: `https://example.com/page` is rejected whatever the network
would have returned; a learn.microsoft.com URL is delegated. -/
theorem C6_witness :
    get_documentation_content "https://example.com/page" (.netFault "x") =
      "Error: URL must be from docs.microsoft.com or learn.microsoft.com" ∧
    get_documentation_content "https://learn.microsoft.com/en-us/docs/azure"
        (.netFault "x") =
      get_page_content "https://learn.microsoft.com/en-us/docs/azure"
        (.netFault "x") :=
  ⟨(C6 "https://example.com/page" (.netFault "x")).1 (by decide),
   (C6 "https://learn.microsoft.com/en-us/docs/azure" (.netFault "x")).2
     (Or.inr (by decide))⟩

/-- The host of a URL: the characters between `https://` and the next slash. -/
def urlHost (url : String) : String :=
  String.mk ((url.data.drop 8).takeWhile (fun c => c != '/'))

/-- C9: the URL validation is a pure string-prefix check, not a host check:
this URL's host is `docs.microsoft.com.attacker.example`, neither accepted
host, yet the string begins with the accepted prefix and
`get_documentation_content` delegates it to the fetch. -/
theorem C9 :
    pyStartsWith "https://docs.microsoft.com.attacker.example/page"
      "https://docs.microsoft.com" = true ∧
    urlHost "https://docs.microsoft.com.attacker.example/page" =
      "docs.microsoft.com.attacker.example" ∧
    urlHost "https://docs.microsoft.com.attacker.example/page" ≠
      "docs.microsoft.com" ∧
    urlHost "https://docs.microsoft.com.attacker.example/page" ≠
      "learn.microsoft.com" ∧
    ∀ out : FetchOutcome,
      get_documentation_content
        "https://docs.microsoft.com.attacker.example/page" out =
      get_page_content "https://docs.microsoft.com.attacker.example/page" out :=
  ⟨by decide, by decide, by decide, by decide, fun out => rfl⟩

theorem strContains_spec (s sub : String) :
    strContains s sub = true ↔ sub.data <:+: s.data := by
  unfold strContains
  rw [List.any_eq_true]
  constructor
  · rintro ⟨i, _, hi⟩
    have heq : (s.data.drop i).take sub.data.length = sub.data := eq_of_beq hi
    rw [← heq]
    exact List.IsInfix.trans (List.IsPrefix.isInfix (List.take_prefix _ _))
      (List.IsSuffix.isInfix (List.drop_suffix _ _))
  · rintro ⟨pre, post, hpp⟩
    refine ⟨pre.length, ?_, ?_⟩
    · rw [List.mem_range]
      have := congrArg List.length hpp
      simp only [List.length_append] at this
      omega
    · rw [← hpp, List.append_assoc, List.drop_left, List.take_left]
      exact beq_self_eq_true _

/-- C7: `find_code_examples` keeps exactly the search results whose
lower-cased title or lower-cased description contains one of the five fixed
keywords as a substring, and reformats the kept ones. -/
theorem C7 (technology : String) (programming_language : String)
    (scenario : String) (out : SearchOutcome) :
    find_code_examples technology programming_language scenario out =
      ((search_docs (codeExamplesQuery technology programming_language scenario)
        "" "en-us" 5 out).filter matchesCodeExample).map formatCodeExample ∧
    ∀ r : Dict, matchesCodeExample r = true ↔
      ∃ keyword ∈ code_keywords,
        keyword.data <:+: (dictGet r "title" "").toLower.data ∨
        keyword.data <:+: (dictGet r "description" "").toLower.data := by
  refine ⟨rfl, fun r => ?_⟩
  unfold matchesCodeExample
  rw [List.any_eq_true]
  constructor
  · rintro ⟨k, hk, hor⟩
    rcases Bool.or_eq_true_iff.mp hor with h | h
    · exact ⟨k, hk, Or.inl ((strContains_spec _ _).mp h)⟩
    · exact ⟨k, hk, Or.inr ((strContains_spec _ _).mp h)⟩
  · rintro ⟨k, hk, h | h⟩
    · exact ⟨k, hk, Bool.or_eq_true_iff.mpr (Or.inl ((strContains_spec _ _).mpr h))⟩
    · exact ⟨k, hk, Bool.or_eq_true_iff.mpr (Or.inr ((strContains_spec _ _).mpr h))⟩

/-- C7 witness: the decomposition instantiated at a concrete call. -/
theorem C7_witness :
    find_code_examples "React" "" "authentication" (.netFault "x") =
      ((search_docs (codeExamplesQuery "React" "" "authentication")
        "" "en-us" 5 (.netFault "x")).filter matchesCodeExample).map
        formatCodeExample :=
  (C7 "React" "" "authentication" (.netFault "x")).1

mutual
/-- Modelled from the spec's step 4 wording: collect the stripped, nonempty
text of a subtree while discarding (not just ignoring) every descendant
subtree matching a non-content selector. -/
def cleanTexts : HtmlNode → List String
  | .text s => if s.trim = "" then [] else [s.trim]
  | .element _ _ cs => cleanTextsList cs
/-- `cleanTexts` over a sibling list: an unwanted sibling contributes
nothing, not even from its descendants. -/
def cleanTextsList : List HtmlNode → List String
  | [] => []
  | n :: ns =>
    if isUnwanted n then cleanTextsList ns
    else cleanTexts n ++ cleanTextsList ns
end

mutual
theorem texts_prune : ∀ n : HtmlNode, texts (pruneNode n) = cleanTexts n
  | .text s => rfl
  | .element t a cs => by
    show textsList (pruneList cs) = cleanTextsList cs
    exact textsList_prune cs
theorem textsList_prune :
    ∀ ns : List HtmlNode, textsList (pruneList ns) = cleanTextsList ns
  | [] => rfl
  | n :: ns => by
    by_cases h : isUnwanted n = true
    · simp only [pruneList, cleanTextsList, h, if_true]
      exact textsList_prune ns
    · rw [Bool.not_eq_true] at h
      simp only [pruneList, cleanTextsList, h, Bool.false_eq_true, if_false, textsList]
      rw [texts_prune n, textsList_prune ns]
end

theorem pruneList_insert (u : HtmlNode) (hu : isUnwanted u = true) :
    ∀ pre post : List HtmlNode,
      pruneList (pre ++ u :: post) = pruneList (pre ++ post)
  | [], post => by simp only [List.nil_append, pruneList, hu, if_true]
  | n :: pre, post => by
    have ih := pruneList_insert u hu pre post
    simp only [List.cons_append, pruneList, List.append_eq] at *
    rw [ih]

/-- C4: when a content region was matched, the output text is assembled
purely from the text nodes outside the removed non-content subtrees
(`cleanTexts` discards every unwanted descendant subtree wholesale); and
inserting an unwanted subtree — a nav, breadcrumb, alert or
feedback-section — among an element's children leaves the extracted text
unchanged, so none of its text appears. -/
theorem C4 (url : String) (doc : List HtmlNode) (e : HtmlNode)
    (h : firstMatch content_selectors doc = some e) :
    get_page_content url (.response 200 (.ok doc)) =
      pyStrTake (String.intercalate "\n" (cleanTexts e)) 5000 ∧
    ∀ (tg : String) (a : List (String × String)) (pre post : List HtmlNode)
      (u : HtmlNode), isUnwanted u = true →
      get_text (pruneNode (.element tg a (pre ++ u :: post))) =
        get_text (pruneNode (.element tg a (pre ++ post))) := by
  constructor
  · have he : extractContent doc = get_text (pruneNode e) := by
      unfold extractContent
      rw [h]
    show pyStrTake (extractContent doc) 5000 = _
    rw [he]
    unfold get_text
    rw [texts_prune]
  · intro tg a pre post u hu
    show get_text (.element tg a (pruneList (pre ++ u :: post))) = _
    rw [pruneList_insert u hu pre post]
    rfl

/-- C4 witness: an article containing a nav; the extracted text is the
clean text, and inserting the nav changed nothing. -/
theorem C4_witness :
    get_page_content "https://learn.microsoft.com/x"
      (.response 200 (.ok [HtmlNode.element "article" []
        [.element "nav" [] [.text "NAV"], .text "hello"]])) =
      pyStrTake (String.intercalate "\n" (cleanTexts
        (HtmlNode.element "article" []
          [.element "nav" [] [.text "NAV"], .text "hello"]))) 5000 ∧
    get_text (pruneNode (.element "main" []
        ([] ++ HtmlNode.element "nav" [] [.text "NAV"] :: [.text "body"]))) =
      get_text (pruneNode (.element "main" [] ([] ++ [.text "body"]))) :=
  ⟨(C4 "https://learn.microsoft.com/x"
      [HtmlNode.element "article" [] [.element "nav" [] [.text "NAV"], .text "hello"]]
      (HtmlNode.element "article" [] [.element "nav" [] [.text "NAV"], .text "hello"])
      rfl).1,
   (C4 "https://learn.microsoft.com/x"
      [HtmlNode.element "article" [] [.element "nav" [] [.text "NAV"], .text "hello"]]
      (HtmlNode.element "article" [] [.element "nav" [] [.text "NAV"], .text "hello"])
      rfl).2 "main" [] [] [.text "body"] (HtmlNode.element "nav" [] [.text "NAV"]) rfl⟩

theorem firstMatch_none (doc : List HtmlNode) :
    ∀ sels : List Selector, (∀ s ∈ sels, selectOneDoc s doc = none) →
      firstMatch sels doc = none
  | [], _ => rfl
  | s :: sels, h => by
    have hs : selectOneDoc s doc = none := h s (List.mem_cons_self _ _)
    show (match selectOneDoc s doc with
      | some e => some e
      | none => firstMatch sels doc) = none
    rw [hs]
    exact firstMatch_none doc sels (fun x hx => h x (List.mem_cons_of_mem _ hx))

theorem firstMatch_here (doc : List HtmlNode) (s : Selector) (e : HtmlNode) :
    ∀ pre post : List Selector, (∀ s2 ∈ pre, selectOneDoc s2 doc = none) →
      selectOneDoc s doc = some e →
      firstMatch (pre ++ s :: post) doc = some e
  | [], post, _, hs => by
    show (match selectOneDoc s doc with
      | some e => some e
      | none => firstMatch post doc) = some e
    rw [hs]
  | s2 :: pre, post, hpre, hs => by
    have h2 : selectOneDoc s2 doc = none := hpre s2 (List.mem_cons_self _ _)
    show (match selectOneDoc s2 doc with
      | some e => some e
      | none => firstMatch (pre ++ s :: post) doc) = some e
    rw [h2]
    exact firstMatch_here doc s e pre post
      (fun x hx => hpre x (List.mem_cons_of_mem _ hx)) hs

/-- C5: on an HTTP 200 response the content region is the first match of the
ordered selector list `main[role="main"]`, `.content`, `article`,
`#main-content`: whenever a selector matches and every earlier one does not,
that match alone determines the output, whatever the later selectors would
have matched; and when none of the four matches the result is the empty
string, not an error. -/
theorem C5 (url : String) (doc : List HtmlNode) :
    ((∀ s ∈ content_selectors, selectOneDoc s doc = none) →
      get_page_content url (.response 200 (.ok doc)) = "") ∧
    ∀ (pre post : List Selector) (s : Selector) (e : HtmlNode),
      content_selectors = pre ++ s :: post →
      (∀ s2 ∈ pre, selectOneDoc s2 doc = none) →
      selectOneDoc s doc = some e →
      get_page_content url (.response 200 (.ok doc)) =
        pyStrTake (get_text (pruneNode e)) 5000 := by
  constructor
  · intro h
    have hfm : firstMatch content_selectors doc = none := firstMatch_none doc _ h
    show pyStrTake (extractContent doc) 5000 = ""
    unfold extractContent
    rw [hfm]
    rfl
  · intro pre post s e hdecomp hpre hs
    have hfm : firstMatch content_selectors doc = some e := by
      rw [hdecomp]
      exact firstMatch_here doc s e pre post hpre hs
    show pyStrTake (extractContent doc) 5000 = _
    unfold extractContent
    rw [hfm]

/-- C5 witness: a document matching no selector yields the empty string; a
document whose `.content` element matches (with `main[role="main"]` not
matching) is extracted from that element even though an `article` element
follows. -/
theorem C5_witness :
    get_page_content "u"
      (.response 200 (.ok [HtmlNode.element "div" [] [.text "x"]])) = "" ∧
    get_page_content "u" (.response 200 (.ok
      [HtmlNode.element "div" [("class", "content wrap")] [.text "CONTENT"],
       HtmlNode.element "article" [] [.text "ART"]])) =
      pyStrTake (get_text (pruneNode
        (HtmlNode.element "div" [("class", "content wrap")]
          [.text "CONTENT"]))) 5000 :=
  ⟨(C5 "u" [HtmlNode.element "div" [] [.text "x"]]).1
     (by intro s hs; fin_cases hs <;> rfl),
   (C5 "u"
      [HtmlNode.element "div" [("class", "content wrap")] [.text "CONTENT"],
       HtmlNode.element "article" [] [.text "ART"]]).2
     [Selector.tagAttr "main" "role" "main"]
     [Selector.tag "article", Selector.idSel "main-content"]
     (Selector.cls "content")
     (HtmlNode.element "div" [("class", "content wrap")] [.text "CONTENT"])
     rfl (by intro s2 hs2; fin_cases hs2; rfl) rfl⟩
